import Mathlib

/-!
Verification of the Chinese–Vietnamese dictionary maintenance pipeline.

This file is a shallow embedding of the reconciliation and enrichment core
of the repository:

* `integrate_cedict.py` — the Reconciler (`CEDICTIntegrator`): matching the
  primary `dictionary` table against the `cedict_entries` table, patching
  matched rows, and inserting new rows up to a cap;
* `deepseek_enhancer.py` — the Enrichment Client/Scheduler
  (`DeepSeekEnhancer`): candidate selection, per-entry patches from API
  results, the batch loop, rate limiting, and JSON extraction from free text;
* `ai_data_completion.py` — the Completion Reporter statistics;
* `pinyin_utils.py` — the tone-number-to-diacritic transform.

Modelling conventions:
* SQLite tables become Lean lists of records, in rowid order.  `SELECT *`
  row dictionaries become structures.  SQL `NULL` and `''` are collapsed to
  `""` for TEXT columns, which is faithful because every use site tests them
  with Python truthiness (`not x`) or with `x IS NULL OR x = ''`, both of
  which identify the two.  Nullable INTEGER columns become `Option Int`.
* `created_at` / `updated_at` are clock-only timestamp columns; every claim
  under study is stated modulo them, so they are omitted from the record.
* `json.loads` is a Python standard-library call; it is modelled by an
  explicit parameter `loads : String → Option PyJson` (`none` models a
  raised `JSONDecodeError`, which every caller catches).  `json.dumps` is
  likewise an opaque serialisation parameter.
* The generative API (`requests.post` plus response unpacking) is modelled
  by an oracle of pure functions giving the extracted result of each request
  kind; `_call_deepseek_api` returning `None` on network failure is the
  `Option`/empty case of those results.
-/

/-- A minimal model of Python JSON values as produced by `json.loads`. -/
inductive PyJson where
  | null
  | bool (b : Bool)
  | str (s : String)
  | num (n : Int)
  | arr (l : List PyJson)
  | obj (kvs : List (String × PyJson))

/-- Python truthiness of a JSON value (`if definitions:`, `if examples:`). -/
def PyJson.truthy : PyJson → Bool
  | .null => false
  | .bool b => b
  | .str s => s ≠ ""
  | .num n => n ≠ 0
  | .arr l => !l.isEmpty
  | .obj kvs => !kvs.isEmpty

/-- `not s or s.strip() == ''`: the string is `NULL`/empty or whitespace-only.
(Python's `str.strip` with no argument strips whitespace; the result is empty
iff every character is whitespace, which also covers the empty string.) -/
def pyBlank (s : String) : Bool :=
  s.data.all Char.isWhitespace

/-- One row of the primary `dictionary` table (`create_database.py`), plus the
columns `traditional`, `simplified`, `cedict_definitions`, `source` added by
`CEDICTIntegrator.add_missing_database_columns`, and the `examples` /
`grammar_info` fields read by `DeepSeekEnhancer.enhance_entry` through
`entry.get(...)` (absent values read as `NULL`, modelled `""`).  Timestamp
columns are clock-only and omitted (see module docstring). -/
structure DictEntry where
  id : Nat
  word : String
  traditional : String := ""
  simplified : String := ""
  pinyin : String := ""
  zhuyin : String := ""
  vi_meaning : String := ""
  en_meaning : String := ""
  part_of_speech : String := ""
  hsk_level : Option Int := none
  tocfl_level : Option Int := none
  frequency_rank : Option Int := none
  hanviet_reading : String := ""
  examples : String := ""
  grammar_info : String := ""
  cedict_definitions : String := ""
  source : String := ""
deriving DecidableEq, Repr

/-- One row of the `cedict_entries` table (`download_cedict.py`): columns in
rowid order are `id, traditional, simplified, pinyin, english, definitions`.
(`add_new_cedict_entries` reads raw tuples, so the column order matters:
`entry[1]` is the traditional form and `entry[2]` the simplified form.) -/
structure CedictRow where
  id : Nat
  traditional : String
  simplified : String
  pinyin : String
  english : String
  definitions : String
deriving DecidableEq, Repr

namespace CEDICTIntegrator

/-- The field patch assembled by `enhance_entry_with_cedict` (the Python
`updates` dict, one optional slot per column it can mention). -/
structure CedictPatch where
  en_meaning : Option String := none
  pinyin : Option String := none
  traditional : Option String := none
  simplified : Option String := none
  cedict_definitions : Option String := none
deriving DecidableEq, Repr

/-- `if updates:` — the patch dict is empty. -/
def CedictPatch.isEmpty (p : CedictPatch) : Bool :=
  p.en_meaning.isNone && p.pinyin.isNone && p.traditional.isNone &&
    p.simplified.isNone && p.cedict_definitions.isNone

/-- `CEDICTIntegrator.enhance_entry_with_cedict` (integrate_cedict.py:132).
`loads` models `json.loads`; `none` models a raised decode error, caught by
the `except` branch which stores the raw string directly. -/
def enhance_entry_with_cedict (loads : String → Option PyJson)
    (main_entry : DictEntry) (cedict_entry : CedictRow) : CedictPatch :=
  { en_meaning :=
      if pyBlank main_entry.en_meaning && cedict_entry.english ≠ "" then
        some cedict_entry.english
      else none
    pinyin :=
      if pyBlank main_entry.pinyin && cedict_entry.pinyin ≠ "" then
        some cedict_entry.pinyin
      else none
    traditional :=
      if pyBlank main_entry.traditional &&
          cedict_entry.traditional ≠ cedict_entry.simplified then
        some cedict_entry.traditional
      else none
    simplified :=
      if pyBlank main_entry.simplified &&
          cedict_entry.simplified ≠ cedict_entry.traditional then
        some cedict_entry.simplified
      else none
    cedict_definitions :=
      if cedict_entry.definitions ≠ "" then
        match loads cedict_entry.definitions with
        | some j => if j.truthy then some cedict_entry.definitions else none
        | none => some cedict_entry.definitions
      else none }

/-- Applying a patch row-update (`UPDATE dictionary SET ... WHERE id = ?`)
to one row; the `updated_at` stamp is clock-only and omitted. -/
def applyCedictPatch (e : DictEntry) (p : CedictPatch) : DictEntry :=
  { e with
    en_meaning := p.en_meaning.getD e.en_meaning
    pinyin := p.pinyin.getD e.pinyin
    traditional := p.traditional.getD e.traditional
    simplified := p.simplified.getD e.simplified
    cedict_definitions := p.cedict_definitions.getD e.cedict_definitions }

/-- The per-entry lookup inside `find_matching_entries` (integrate_cedict.py:89):
`SELECT * FROM cedict_entries WHERE simplified = ? LIMIT 1`, and on a miss the
same with `traditional = ?` (first returned row wins). -/
def find_cedict_match (ced : List CedictRow) (word : String) : Option CedictRow :=
  match ced.find? (fun r => r.simplified == word) with
  | some r => some r
  | none => ced.find? (fun r => r.traditional == word)

/-- `CEDICTIntegrator.find_matching_entries`: iterate all main rows, bind at
most one CC-CEDICT row to each. -/
def find_matching_entries (main : List DictEntry) (ced : List CedictRow) :
    List (DictEntry × CedictRow) :=
  main.filterMap (fun e => (find_cedict_match ced e.word).map (fun c => (e, c)))

/-- `CEDICTIntegrator.update_existing_entries` (integrate_cedict.py:253):
for each matched pair compute the patch from the snapshot row; if the patch
dict is nonempty, run the UPDATE (by id) and count it. Returns the updated
table and `updated_count`. -/
def update_existing_entries (loads : String → Option PyJson)
    (db : List DictEntry) (pairs : List (DictEntry × CedictRow)) :
    List DictEntry × Nat :=
  pairs.foldl
    (fun st mc =>
      let p := enhance_entry_with_cedict loads mc.1 mc.2
      if p.isEmpty then st
      else
        (st.1.map (fun x => if x.id = mc.1.id then applyCedictPatch x p else x),
         st.2 + 1))
    (db, 0)

/-- Lexicographic comparison of character lists: SQLite's byte-wise TEXT
comparison, which agrees with code-point order on UTF-8. -/
def charListLeB : List Char → List Char → Bool
  | [], _ => true
  | _ :: _, [] => false
  | a :: as, b :: bs => if a < b then true else if b < a then false else charListLeB as bs

/-- `ORDER BY LENGTH(simplified), simplified` (SQLite: character length of the
TEXT value, then text comparison). -/
def cedictLe (a b : CedictRow) : Prop :=
  a.simplified.length < b.simplified.length ∨
    (a.simplified.length = b.simplified.length ∧
      charListLeB a.simplified.data b.simplified.data = true)

instance : DecidableRel cedictLe := fun a b => by
  unfold cedictLe; infer_instance

/-- The row inserted for a new CC-CEDICT entry (integrate_cedict.py:221).
Raw-tuple indexing: `chinese_text = entry[1]` is the **traditional** column,
`entry[2]` the simplified column (the source comments have them swapped);
`vi_meaning` is explicitly left empty, provenance is `'CC-CEDICT'`. -/
def insertedRow (newId : Nat) (r : CedictRow) : DictEntry :=
  { id := newId
    word := r.traditional
    pinyin := r.pinyin
    en_meaning := r.english
    vi_meaning := ""
    traditional := if r.simplified ≠ r.traditional then r.simplified else ""
    simplified := r.traditional
    cedict_definitions := r.definitions
    source := "CC-CEDICT" }

/-- `CEDICTIntegrator.add_new_cedict_entries` (integrate_cedict.py:168):
snapshot the existing identity strings, fetch the `limit * 3` shortest
CC-CEDICT rows, keep those whose traditional and simplified forms are both
absent from the snapshot, cut to `limit`, and insert them.  Returns the new
table, `added_count`, and the list of source rows that were inserted. -/
def add_new_cedict_entries (limit : Nat) (db : List DictEntry)
    (ced : List CedictRow) : List DictEntry × Nat × List CedictRow :=
  let existing_words := db.map (fun e => e.word)
  let window := (ced.insertionSort cedictLe).take (limit * 3)
  let new_entries :=
    (window.filter (fun r =>
      !existing_words.contains r.traditional &&
        !existing_words.contains r.simplified)).take limit
  let nextId := (db.map (fun e => e.id)).foldl max 0 + 1
  let rows := new_entries.enum.map (fun p => insertedRow (nextId + p.1) p.2)
  (db ++ rows, rows.length, new_entries)

/-- The result dict of `integrate_full` (integrate_cedict.py:370). -/
structure IntegrationResult where
  matched_entries : Nat
  updated_entries : Nat
  added_entries : Nat
  total_before : Nat
  total_after : Nat
deriving DecidableEq, Repr

/-- `CEDICTIntegrator.integrate_full` (integrate_cedict.py:341): match, update
matched rows, then insert new rows up to the cap.  (The schema migration
`add_missing_database_columns` is additive and already reflected in
`DictEntry`.)  Returns the resulting table and the reported counts. -/
def integrate_full (loads : String → Option PyJson) (add_new_limit : Nat)
    (db : List DictEntry) (ced : List CedictRow) :
    List DictEntry × IntegrationResult :=
  let pairs := find_matching_entries db ced
  let upd := update_existing_entries loads db pairs
  let ins := add_new_cedict_entries add_new_limit upd.1 ced
  (ins.1,
   { matched_entries := pairs.length
     updated_entries := upd.2
     added_entries := ins.2.1
     total_before := db.length
     total_after := ins.1.length })

end CEDICTIntegrator

namespace DeepSeekEnhancer

/-- First index of a character in a string's character list: Python
`str.find` (`None` models `-1`). -/
def str_find : List Char → Char → Option Nat
  | [], _ => none
  | x :: xs, c => if x = c then some 0 else (str_find xs c).map (fun i => i + 1)

/-- Last index of a character: Python `str.rfind` (`None` models `-1`). -/
def str_rfind (l : List Char) (c : Char) : Option Nat :=
  (str_find l.reverse c).map (fun i => l.length - 1 - i)

/-- The bracket-scanning extraction shared by the response handlers
(deepseek_enhancer.py:121 and :184): `json_start = response.find(open)`,
`json_end = response.rfind(close) + 1`, and the substring
`response[json_start:json_end]` provided `json_start >= 0 and
json_end > json_start`. -/
def extract_bracketed (openC closeC : Char) (response : String) : Option String :=
  match str_find response.data openC, str_rfind response.data closeC with
  | some i, some j => if i < j + 1 then some ⟨(response.data.take (j + 1)).drop i⟩ else none
  | _, _ => none

/-- `DeepSeekEnhancer.enhance_missing_pronunciation` (deepseek_enhancer.py:95),
from the point where the API response is in hand: `api_response = none` models
`_call_deepseek_api` returning `None` (network/HTTP/shape failure), `loads`
models `json.loads` (`none` = raised decode error, caught).  A successful
parse of a `{...}` substring is an object; its key/value pairs are returned. -/
def enhance_missing_pronunciation (loads : String → Option PyJson)
    (api_response : Option String) : List (String × PyJson) :=
  match api_response with
  | none => []
  | some response =>
    match extract_bracketed '{' '}' response with
    | none => []
    | some sub =>
      match loads sub with
      | some (PyJson.obj kvs) => kvs
      | some _ => []
      | none => []

/-- `DeepSeekEnhancer.enhance_missing_examples` (deepseek_enhancer.py:153),
from the point where the API response is in hand.  The
`isinstance(examples, list)` guard returns `[]` for any non-array parse. -/
def enhance_missing_examples (loads : String → Option PyJson)
    (api_response : Option String) : List PyJson :=
  match api_response with
  | none => []
  | some response =>
    match extract_bracketed '[' ']' response with
    | none => []
    | some sub =>
      match loads sub with
      | some (PyJson.arr l) => l
      | some _ => []
      | none => []

/-- `DeepSeekEnhancer._rate_limit` (deepseek_enhancer.py:45): the duration
passed to `time.sleep` — the remainder of the fixed interval if less than
`request_delay` has elapsed since the previous call, and no sleep at all
otherwise.  Times are modelled as rationals (seconds). -/
def rate_limit_sleep (request_delay last_request_time current_time : ℚ) : ℚ :=
  if current_time - last_request_time < request_delay then
    request_delay - (current_time - last_request_time)
  else 0

/-- The per-entry results of the Enrichment Client as consumed by
`enhance_entry`, one pure function per request kind (the API plus the
extraction of §`enhance_missing_*`); `json.dumps` serialisation is opaque.
Pronunciation results are string-valued key/value pairs (the only shape the
scheduler can persist), `vietnamese` is the already-stripped response text
(`""` models a failed or empty call). -/
structure EnhanceOracle where
  pronunciation : String → List (String × String)
  vietnamese : String → String → String
  examples : String → String → List PyJson
  grammar : String → List (String × PyJson)
  dumpsArr : List PyJson → String
  dumpsObj : List (String × PyJson) → String

/-- Python `dict.get` on a parsed-JSON object. -/
def dictGet (kvs : List (String × String)) (k : String) : Option String :=
  (kvs.find? (fun p => p.1 == k)).map (fun p => p.2)

/-- The field patch assembled by `enhance_entry` (the Python `updates` dict). -/
structure EnhancePatch where
  zhuyin : Option String := none
  hanviet_reading : Option String := none
  pinyin : Option String := none
  vi_meaning : Option String := none
  examples : Option String := none
  grammar_info : Option String := none
deriving DecidableEq, Repr

/-- `if updates:` — the patch dict is empty. -/
def EnhancePatch.isEmpty (p : EnhancePatch) : Bool :=
  p.zhuyin.isNone && p.hanviet_reading.isNone && p.pinyin.isNone &&
    p.vi_meaning.isNone && p.examples.isNone && p.grammar_info.isNone

/-- The pronunciation block of `enhance_entry` (deepseek_enhancer.py:256):
gated on `zhuyin` **or** `hanviet_reading` being empty; may set `zhuyin`,
`hanviet_reading`, and — only if `pinyin` is empty — `pinyin`, each keyed on
the corresponding field of the parsed pronunciation dict being truthy. -/
def pronunciationStep (o : EnhanceOracle) (entry : DictEntry) : EnhancePatch :=
  if entry.zhuyin == "" || entry.hanviet_reading == "" then
    { zhuyin :=
        match dictGet (o.pronunciation entry.word) "zhuyin" with
        | some s => if s ≠ "" then some s else none
        | none => none
      hanviet_reading :=
        match dictGet (o.pronunciation entry.word) "hanviet" with
        | some s => if s ≠ "" then some s else none
        | none => none
      pinyin :=
        match dictGet (o.pronunciation entry.word) "pinyin_tones" with
        | some s => if s ≠ "" ∧ entry.pinyin = "" then some s else none
        | none => none }
  else {}

/-- The Vietnamese-meaning block of `enhance_entry` (deepseek_enhancer.py:266):
gated on `vi_meaning` being empty; keeps a nonempty (stripped) response. -/
def vietnameseStep (o : EnhanceOracle) (entry : DictEntry) (p : EnhancePatch) :
    EnhancePatch :=
  if entry.vi_meaning == "" then
    let vm := o.vietnamese entry.word entry.en_meaning
    if vm ≠ "" then { p with vi_meaning := some vm } else p
  else p

/-- The examples block of `enhance_entry` (deepseek_enhancer.py:275): gated on
`examples` being empty; the request receives the freshly generated translation
when one exists (`updates.get('vi_meaning', entry.get('vi_meaning', ''))`),
and a nonempty result list is serialised into the patch. -/
def examplesStep (o : EnhanceOracle) (entry : DictEntry) (p : EnhancePatch) :
    EnhancePatch :=
  if entry.examples == "" then
    let exs := o.examples entry.word (p.vi_meaning.getD entry.vi_meaning)
    if !exs.isEmpty then { p with examples := some (o.dumpsArr exs) } else p
  else p

/-- The grammar block of `enhance_entry` (deepseek_enhancer.py:284): gated on
`grammar_info` being empty; a nonempty result dict is serialised. -/
def grammarStep (o : EnhanceOracle) (entry : DictEntry) (p : EnhancePatch) :
    EnhancePatch :=
  if entry.grammar_info == "" then
    let g := o.grammar entry.word
    if !g.isEmpty then { p with grammar_info := some (o.dumpsObj g) } else p
  else p

/-- The `updates` dict built by `DeepSeekEnhancer.enhance_entry`
(deepseek_enhancer.py:248): the four request blocks in program order. -/
def enhance_entry_updates (o : EnhanceOracle) (entry : DictEntry) : EnhancePatch :=
  grammarStep o entry
    (examplesStep o entry (vietnameseStep o entry (pronunciationStep o entry)))

/-- `_update_database_entry`'s row update (`UPDATE dictionary SET ...
WHERE id = ?`); `updated_at` is clock-only and omitted. -/
def applyEnhancePatch (e : DictEntry) (p : EnhancePatch) : DictEntry :=
  { e with
    zhuyin := p.zhuyin.getD e.zhuyin
    hanviet_reading := p.hanviet_reading.getD e.hanviet_reading
    pinyin := p.pinyin.getD e.pinyin
    vi_meaning := p.vi_meaning.getD e.vi_meaning
    examples := p.examples.getD e.examples
    grammar_info := p.grammar_info.getD e.grammar_info }

/-- `DeepSeekEnhancer.enhance_entry` applied to the store: compute the patch;
if it is nonempty, persist it and report `True`, else report `False`. -/
def enhance_entry (o : EnhanceOracle) (db : List DictEntry)
    (entry : DictEntry) : List DictEntry × Bool :=
  let p := enhance_entry_updates o entry
  if p.isEmpty then (db, false)
  else (db.map (fun x => if x.id = entry.id then applyEnhancePatch x p else x), true)

/-- The WHERE clause of `find_entries_needing_enhancement`
(deepseek_enhancer.py:236): missing `zhuyin`, `vi_meaning`, or
`hanviet_reading` (`IS NULL OR = ''`). -/
def needs_enhancement (e : DictEntry) : Bool :=
  e.zhuyin == "" || e.vi_meaning == "" || e.hanviet_reading == ""

/-- `x` strictly precedes `y` under SQLite `frequency_rank DESC`
(`NULL` sorts as smallest, hence last in descending order). -/
def rankDescLt : Option Int → Option Int → Bool
  | some a, some b => decide (b < a)
  | some _, none => true
  | none, some _ => false
  | none, none => false

/-- `a` may be listed no later than `b` under
`ORDER BY frequency_rank DESC, id ASC`. -/
def enhanceLe (a b : DictEntry) : Prop :=
  rankDescLt a.frequency_rank b.frequency_rank = true ∨
    (a.frequency_rank = b.frequency_rank ∧ a.id ≤ b.id)

instance : DecidableRel enhanceLe := fun a b => by
  unfold enhanceLe; infer_instance

instance : IsTotal DictEntry enhanceLe := by
  constructor
  intro a b
  unfold enhanceLe rankDescLt
  rcases a.frequency_rank with _ | x <;> rcases b.frequency_rank with _ | y <;>
    simp <;> omega

instance : IsTrans DictEntry enhanceLe := by
  constructor
  intro a b c hab hbc
  unfold enhanceLe rankDescLt at *
  rcases ha : a.frequency_rank with _ | x <;> rcases hb : b.frequency_rank with _ | y <;>
    rcases hc : c.frequency_rank with _ | z <;> simp_all <;> omega

/-- `DeepSeekEnhancer.find_entries_needing_enhancement`
(deepseek_enhancer.py:231): filter, order, cap at `limit`. -/
def find_entries_needing_enhancement (db : List DictEntry) (limit : Nat) :
    List DictEntry :=
  ((db.filter needs_enhancement).insertionSort enhanceLe).take limit

/-- The mutable state of the `enhance_batch` loop
(deepseek_enhancer.py:330): the store plus the two counters. -/
structure BatchState where
  db : List DictEntry
  total_processed : Nat
  enhanced_count : Nat
deriving Repr

/-- The `for entry in entries` body of `enhance_batch`: stop (`break`) once
`total_processed` reaches `max_entries`; otherwise enhance, bump
`total_processed`, and bump `enhanced_count` when the entry was enhanced. -/
def enhance_batch_inner (o : EnhanceOracle) (max_entries : Nat) :
    List DictEntry → BatchState → BatchState
  | [], s => s
  | e :: rest, s =>
    if max_entries ≤ s.total_processed then s
    else
      enhance_batch_inner o max_entries rest
        ⟨(enhance_entry o s.db e).1, s.total_processed + 1,
         s.enhanced_count + (if (enhance_entry o s.db e).2 then 1 else 0)⟩

/-- The `while total_processed < max_entries` loop of `enhance_batch`:
re-select a batch of candidates, stop when none remain, otherwise process the
batch and continue.  Totality of this definition is the batch-termination
property: each pass over a nonempty batch strictly increases
`total_processed`, bounded by `max_entries`. -/
def enhance_batch_loop (o : EnhanceOracle) (batch_size max_entries : Nat)
    (s : BatchState) : BatchState :=
  if hlt : s.total_processed < max_entries then
    let entries := find_entries_needing_enhancement s.db batch_size
    if hne : entries = [] then s
    else enhance_batch_loop o batch_size max_entries
      (enhance_batch_inner o max_entries entries s)
  else s
termination_by max_entries - s.total_processed
decreasing_by
  have mono : ∀ (l : List DictEntry) (t : BatchState),
      t.total_processed ≤ (enhance_batch_inner o max_entries l t).total_processed := by
    intro l
    induction l with
    | nil => intro t; simp [enhance_batch_inner]
    | cons e rest ih =>
      intro t
      rw [enhance_batch_inner]
      split
      · exact le_refl _
      · exact le_trans (Nat.le_succ _)
          (ih ⟨(enhance_entry o t.db e).1, t.total_processed + 1,
            t.enhanced_count + (if (enhance_entry o t.db e).2 then 1 else 0)⟩)
  have step : ∀ (l : List DictEntry), l ≠ [] → ∀ (t : BatchState),
      t.total_processed < max_entries →
      t.total_processed < (enhance_batch_inner o max_entries l t).total_processed := by
    intro l hl t ht
    rcases l with _ | ⟨e, rest⟩
    · exact absurd rfl hl
    · rw [enhance_batch_inner, if_neg (Nat.not_le.mpr ht)]
      exact Nat.lt_of_lt_of_le (Nat.lt_succ_self _)
        (mono rest ⟨(enhance_entry o t.db e).1, t.total_processed + 1,
          t.enhanced_count + (if (enhance_entry o t.db e).2 then 1 else 0)⟩)
  have h := step _ hne s hlt
  have h2 : entries = find_entries_needing_enhancement s.db batch_size := rfl
  rw [h2] at h
  omega

/-- `DeepSeekEnhancer.enhance_batch` (deepseek_enhancer.py:330), returning the
final loop state (`enhanced_count` is the Python return value). -/
def enhance_batch (o : EnhanceOracle) (batch_size max_entries : Nat)
    (db : List DictEntry) : BatchState :=
  enhance_batch_loop o batch_size max_entries ⟨db, 0, 0⟩

end DeepSeekEnhancer

/-! ### `pinyin_utils.convert_pinyin_tone_numbers` -/

/-- The `tone_marks` table of `convert_pinyin_tone_numbers`
(pinyin_utils.py:20): index 0 is the bare vowel, indexes 1–4 the tones. -/
def toneMarks (v : Char) : List Char :=
  match v with
  | 'a' => ['a', 'ā', 'á', 'ǎ', 'à']
  | 'e' => ['e', 'ē', 'é', 'ě', 'è']
  | 'i' => ['i', 'ī', 'í', 'ǐ', 'ì']
  | 'o' => ['o', 'ō', 'ó', 'ǒ', 'ò']
  | 'u' => ['u', 'ū', 'ú', 'ǔ', 'ù']
  | 'ü' => ['ü', 'ǖ', 'ǘ', 'ǚ', 'ǜ']
  | 'A' => ['A', 'Ā', 'Á', 'Ǎ', 'À']
  | 'E' => ['E', 'Ē', 'É', 'Ě', 'È']
  | 'I' => ['I', 'Ī', 'Í', 'Ǐ', 'Ì']
  | 'O' => ['O', 'Ō', 'Ó', 'Ǒ', 'Ò']
  | 'U' => ['U', 'Ū', 'Ú', 'Ǔ', 'Ù']
  | 'Ü' => ['Ü', 'Ǖ', 'Ǘ', 'Ǚ', 'Ǜ']
  | _ => [v]

/-- Accumulator for `pyWords` (current word collected in reverse). -/
def pyWordsAux : List Char → List Char → List (List Char)
  | cur, [] => if cur.isEmpty then [] else [cur.reverse]
  | cur, c :: cs =>
    if c.isWhitespace then
      if cur.isEmpty then pyWordsAux [] cs else cur.reverse :: pyWordsAux [] cs
    else pyWordsAux (c :: cur) cs

/-- Python `str.split()` with no argument: split on whitespace runs,
dropping empty pieces (pinyin_utils.py:36). -/
def pyWords (l : List Char) : List (List Char) :=
  pyWordsAux [] l

/-- The fixed vowel scan order of the marking loop (pinyin_utils.py:55). -/
def vowelScanOrder : List Char :=
  ['a', 'e', 'i', 'o', 'u', 'ü', 'A', 'E', 'I', 'O', 'U', 'Ü']

/-- `for v in [...]: if v in clean_word:` — the first listed vowel that occurs
in the word. -/
def findVowel : List Char → List Char → Option Char
  | [], _ => none
  | v :: vs, w => if w.contains v then some v else findVowel vs w

/-- Python `str.replace(old, new, 1)` for single characters. -/
def replaceFirstChar : List Char → Char → Char → List Char
  | [], _, _ => []
  | c :: cs, v, m => if c = v then m :: cs else c :: replaceFirstChar cs v m

/-- The per-word body of `convert_pinyin_tone_numbers` (pinyin_utils.py:39):
strip a trailing digit as the tone number; a tone outside 1–4 returns the
word unchanged (digit included); otherwise mark the first vowel in scan
order, diverting `i`→`u` / `u`→`i` when both occur without `a`/`o`/`e`. -/
def convertWord (w : List Char) : List Char :=
  let td : Nat × List Char :=
    match w.getLast? with
    | some c => if c.isDigit then (c.toNat - '0'.toNat, w.dropLast) else (0, w)
    | none => (0, w)
  let tone := td.1
  let clean := td.2
  if tone < 1 ∨ 4 < tone then w
  else
    match findVowel vowelScanOrder clean with
    | none => clean
    | some v =>
      let v2 :=
        if v = 'i' && clean.contains 'u' && !clean.contains 'a' &&
            !clean.contains 'o' && !clean.contains 'e' then 'u'
        else if v = 'u' && clean.contains 'i' && !clean.contains 'a' &&
            !clean.contains 'o' && !clean.contains 'e' then 'i'
        else v
      replaceFirstChar clean v2 ((toneMarks v2).getD tone v2)

/-- `convert_pinyin_tone_numbers` (pinyin_utils.py:6): split into
whitespace-separated words, convert each, rejoin with single spaces. -/
def convert_pinyin_tone_numbers (pinyin : String) : String :=
  if pinyin = "" then pinyin
  else ⟨List.intercalate [' '] ((pyWords pinyin.data).map convertWord)⟩

/-! ### `ai_data_completion.ComprehensiveDataCompletion.get_initial_statistics` -/

namespace ComprehensiveDataCompletion

/-- The statistics dict returned by `get_initial_statistics`
(ai_data_completion.py:83); rates are percentages (Python floats, modelled
as exact rationals). -/
structure InitialStatistics where
  total_entries : Nat
  with_english : Nat
  with_vietnamese : Nat
  with_pinyin : Nat
  with_zhuyin : Nat
  with_hanviet : Nat
  english_rate : ℚ
  vietnamese_rate : ℚ
  pinyin_rate : ℚ
  zhuyin_rate : ℚ
  hanviet_rate : ℚ
deriving DecidableEq, Repr

/-- `ComprehensiveDataCompletion.get_initial_statistics`
(ai_data_completion.py:52): per-field non-null-and-non-empty counts, and
each coverage rate guarded by `if total > 0 else 0`. -/
def get_initial_statistics (db : List DictEntry) : InitialStatistics :=
  let total := db.length
  let with_english := (db.filter (fun e => e.en_meaning != "")).length
  let with_vietnamese := (db.filter (fun e => e.vi_meaning != "")).length
  let with_pinyin := (db.filter (fun e => e.pinyin != "")).length
  let with_zhuyin := (db.filter (fun e => e.zhuyin != "")).length
  let with_hanviet := (db.filter (fun e => e.hanviet_reading != "")).length
  { total_entries := total
    with_english := with_english
    with_vietnamese := with_vietnamese
    with_pinyin := with_pinyin
    with_zhuyin := with_zhuyin
    with_hanviet := with_hanviet
    english_rate := if 0 < total then (with_english : ℚ) / (total : ℚ) * 100 else 0
    vietnamese_rate := if 0 < total then (with_vietnamese : ℚ) / (total : ℚ) * 100 else 0
    pinyin_rate := if 0 < total then (with_pinyin : ℚ) / (total : ℚ) * 100 else 0
    zhuyin_rate := if 0 < total then (with_zhuyin : ℚ) / (total : ℚ) * 100 else 0
    hanviet_rate := if 0 < total then (with_hanviet : ℚ) / (total : ℚ) * 100 else 0 }

end ComprehensiveDataCompletion

/-! ### Concrete instances used by witnesses and counterexamples -/

/-- `json.loads` on text that is not valid JSON: always raises (the callers
catch the error), modelled as constant failure. -/
def loadsNone : String → Option PyJson := fun _ => none

/-- A primary-store row holding only its identity: word `你好`, every other
field empty/NULL (the §8 scenario row `{word="你好", translation=""}`). -/
def sampleEntry : DictEntry := { id := 1, word := "你好" }

/-- The §8 scenario source row:
`{simplified="你好", traditional="你好", pronunciation="ni3 hao3", english="hello"}`
with an empty definitions sidecar. -/
def sampleCedict : CedictRow :=
  { id := 1, traditional := "你好", simplified := "你好", pinyin := "ni3 hao3",
    english := "hello", definitions := "" }

/-- The same source row with a non-empty definitions sidecar that is not
valid JSON text. -/
def sampleCedictDefs : CedictRow := { sampleCedict with definitions := "x" }

/-- A fully populated primary-store row: every text field non-empty. -/
def populatedEntry : DictEntry :=
  { id := 2, word := "学", traditional := "學", simplified := "学",
    pinyin := "xue2", zhuyin := "ㄒㄩㄝˊ", vi_meaning := "học",
    en_meaning := "to study", part_of_speech := "v",
    frequency_rank := some 40, hanviet_reading := "học",
    examples := "ex", grammar_info := "gi", cedict_definitions := "old",
    source := "seed" }

/-- A row whose `zhuyin` is populated while `hanviet_reading` is empty (the
pronunciation request is then still issued). -/
def zhuyinOnlyEntry : DictEntry :=
  { id := 3, word := "好", zhuyin := "ㄏㄠˇ", vi_meaning := "tốt",
    examples := "ex", grammar_info := "gi" }

/-- A concrete Enrichment Client oracle returning fixed results. -/
def sampleOracle : DeepSeekEnhancer.EnhanceOracle :=
  { pronunciation := fun _ =>
      [("zhuyin", "ㄋㄧˇ ㄏㄠˇ"), ("hanviet", "nhĩ hảo"), ("pinyin_tones", "nǐ hǎo")]
    vietnamese := fun _ _ => "xin chào"
    examples := fun _ _ => [PyJson.str "example"]
    grammar := fun _ => [("part_of_speech", PyJson.str "greeting")]
    dumpsArr := fun _ => "serializedExamples"
    dumpsObj := fun _ => "serializedGrammar" }

/-! ## Helper lemmas -/

open CEDICTIntegrator DeepSeekEnhancer ComprehensiveDataCompletion

theorem vietnameseStep_of_filled (o : EnhanceOracle) (e : DictEntry)
    (p : EnhancePatch) (h : e.vi_meaning ≠ "") : vietnameseStep o e p = p := by
  unfold vietnameseStep
  rw [if_neg (by simpa using h)]

theorem examplesStep_of_filled (o : EnhanceOracle) (e : DictEntry)
    (p : EnhancePatch) (h : e.examples ≠ "") : examplesStep o e p = p := by
  unfold examplesStep
  rw [if_neg (by simpa using h)]

theorem grammarStep_of_filled (o : EnhanceOracle) (e : DictEntry)
    (p : EnhancePatch) (h : e.grammar_info ≠ "") : grammarStep o e p = p := by
  unfold grammarStep
  rw [if_neg (by simpa using h)]

theorem pronunciationStep_of_filled (o : EnhanceOracle) (e : DictEntry)
    (h1 : e.zhuyin ≠ "") (h2 : e.hanviet_reading ≠ "") :
    pronunciationStep o e = {} := by
  unfold pronunciationStep
  rw [if_neg (by simp [h1, h2])]

theorem vietnameseStep_zhuyin (o : EnhanceOracle) (e : DictEntry)
    (p : EnhancePatch) : (vietnameseStep o e p).zhuyin = p.zhuyin := by
  unfold vietnameseStep; dsimp only; split_ifs <;> rfl

theorem vietnameseStep_hanviet (o : EnhanceOracle) (e : DictEntry)
    (p : EnhancePatch) : (vietnameseStep o e p).hanviet_reading = p.hanviet_reading := by
  unfold vietnameseStep; dsimp only; split_ifs <;> rfl

theorem vietnameseStep_pinyin (o : EnhanceOracle) (e : DictEntry)
    (p : EnhancePatch) : (vietnameseStep o e p).pinyin = p.pinyin := by
  unfold vietnameseStep; dsimp only; split_ifs <;> rfl

theorem vietnameseStep_examples (o : EnhanceOracle) (e : DictEntry)
    (p : EnhancePatch) : (vietnameseStep o e p).examples = p.examples := by
  unfold vietnameseStep; dsimp only; split_ifs <;> rfl

theorem vietnameseStep_grammar (o : EnhanceOracle) (e : DictEntry)
    (p : EnhancePatch) : (vietnameseStep o e p).grammar_info = p.grammar_info := by
  unfold vietnameseStep; dsimp only; split_ifs <;> rfl

theorem examplesStep_zhuyin (o : EnhanceOracle) (e : DictEntry)
    (p : EnhancePatch) : (examplesStep o e p).zhuyin = p.zhuyin := by
  unfold examplesStep; dsimp only; split_ifs <;> rfl

theorem examplesStep_hanviet (o : EnhanceOracle) (e : DictEntry)
    (p : EnhancePatch) : (examplesStep o e p).hanviet_reading = p.hanviet_reading := by
  unfold examplesStep; dsimp only; split_ifs <;> rfl

theorem examplesStep_pinyin (o : EnhanceOracle) (e : DictEntry)
    (p : EnhancePatch) : (examplesStep o e p).pinyin = p.pinyin := by
  unfold examplesStep; dsimp only; split_ifs <;> rfl

theorem examplesStep_vi (o : EnhanceOracle) (e : DictEntry)
    (p : EnhancePatch) : (examplesStep o e p).vi_meaning = p.vi_meaning := by
  unfold examplesStep; dsimp only; split_ifs <;> rfl

theorem examplesStep_grammar (o : EnhanceOracle) (e : DictEntry)
    (p : EnhancePatch) : (examplesStep o e p).grammar_info = p.grammar_info := by
  unfold examplesStep; dsimp only; split_ifs <;> rfl

theorem grammarStep_zhuyin (o : EnhanceOracle) (e : DictEntry)
    (p : EnhancePatch) : (grammarStep o e p).zhuyin = p.zhuyin := by
  unfold grammarStep; dsimp only; split_ifs <;> rfl

theorem grammarStep_hanviet (o : EnhanceOracle) (e : DictEntry)
    (p : EnhancePatch) : (grammarStep o e p).hanviet_reading = p.hanviet_reading := by
  unfold grammarStep; dsimp only; split_ifs <;> rfl

theorem grammarStep_pinyin (o : EnhanceOracle) (e : DictEntry)
    (p : EnhancePatch) : (grammarStep o e p).pinyin = p.pinyin := by
  unfold grammarStep; dsimp only; split_ifs <;> rfl

theorem grammarStep_vi (o : EnhanceOracle) (e : DictEntry)
    (p : EnhancePatch) : (grammarStep o e p).vi_meaning = p.vi_meaning := by
  unfold grammarStep; dsimp only; split_ifs <;> rfl

theorem grammarStep_examples (o : EnhanceOracle) (e : DictEntry)
    (p : EnhancePatch) : (grammarStep o e p).examples = p.examples := by
  unfold grammarStep; dsimp only; split_ifs <;> rfl

theorem pronunciationStep_vi (o : EnhanceOracle) (e : DictEntry) :
    (pronunciationStep o e).vi_meaning = none := by
  unfold pronunciationStep; split_ifs <;> rfl

theorem pronunciationStep_examples (o : EnhanceOracle) (e : DictEntry) :
    (pronunciationStep o e).examples = none := by
  unfold pronunciationStep; split_ifs <;> rfl

theorem pronunciationStep_grammar (o : EnhanceOracle) (e : DictEntry) :
    (pronunciationStep o e).grammar_info = none := by
  unfold pronunciationStep; split_ifs <;> rfl

theorem pronunciationStep_pinyin_of_filled (o : EnhanceOracle) (e : DictEntry)
    (h : e.pinyin ≠ "") : (pronunciationStep o e).pinyin = none := by
  unfold pronunciationStep
  split_ifs
  · rcases dictGet (o.pronunciation e.word) "pinyin_tones" with _ | s <;> simp [h]
  · rfl

theorem enhance_entry_updates_pinyin_of_filled (o : EnhanceOracle)
    (f : DictEntry) (h : f.pinyin ≠ "") :
    (enhance_entry_updates o f).pinyin = none := by
  unfold enhance_entry_updates
  rw [grammarStep_pinyin, examplesStep_pinyin, vietnameseStep_pinyin,
    pronunciationStep_pinyin_of_filled o f h]

theorem enhance_entry_updates_vi_of_filled (o : EnhanceOracle)
    (f : DictEntry) (h : f.vi_meaning ≠ "") :
    (enhance_entry_updates o f).vi_meaning = none := by
  unfold enhance_entry_updates
  rw [grammarStep_vi, examplesStep_vi, vietnameseStep_of_filled o f _ h,
    pronunciationStep_vi]

theorem enhance_entry_updates_examples_of_filled (o : EnhanceOracle)
    (f : DictEntry) (h : f.examples ≠ "") :
    (enhance_entry_updates o f).examples = none := by
  unfold enhance_entry_updates
  rw [grammarStep_examples, examplesStep_of_filled o f _ h,
    vietnameseStep_examples, pronunciationStep_examples]

theorem enhance_entry_updates_grammar_of_filled (o : EnhanceOracle)
    (f : DictEntry) (h : f.grammar_info ≠ "") :
    (enhance_entry_updates o f).grammar_info = none := by
  unfold enhance_entry_updates
  rw [grammarStep_of_filled o f _ h, examplesStep_grammar,
    vietnameseStep_grammar, pronunciationStep_grammar]

theorem enhance_entry_updates_pron_of_filled (o : EnhanceOracle)
    (f : DictEntry) (h1 : f.zhuyin ≠ "") (h2 : f.hanviet_reading ≠ "") :
    (enhance_entry_updates o f).zhuyin = none ∧
      (enhance_entry_updates o f).hanviet_reading = none := by
  unfold enhance_entry_updates
  rw [grammarStep_zhuyin, grammarStep_hanviet, examplesStep_zhuyin,
    examplesStep_hanviet, vietnameseStep_zhuyin, vietnameseStep_hanviet,
    pronunciationStep_of_filled o f h1 h2]
  exact ⟨rfl, rfl⟩

/-! ## Claims -/

/-- Claim C1 (amended): non-destructive merge holds for the Reconciler's
update-phase patch on `en_meaning`, `pinyin`, `traditional`, `simplified`
(where "empty" means blank — empty, NULL, or whitespace-only, as tested by
the code's `strip()` guards), and for the Scheduler's per-entry patch on
`pinyin`, `vi_meaning`, `examples`, `grammar_info`; the pronunciation pair
`zhuyin` / `hanviet_reading` is preserved when **both** are non-empty.  It
does **not** hold for the `cedict_definitions` sidecar, which
`enhance_entry_with_cedict` rewrites unconditionally, nor for a populated
`zhuyin` (resp. `hanviet_reading`) when its partner field is empty (see the
counterexample). -/
theorem nondestructive_merge_amended (loads : String → Option PyJson)
    (e : DictEntry) (c : CedictRow) (o : EnhanceOracle) (f : DictEntry) :
    (pyBlank e.en_meaning = false →
      (applyCedictPatch e (enhance_entry_with_cedict loads e c)).en_meaning = e.en_meaning) ∧
    (pyBlank e.pinyin = false →
      (applyCedictPatch e (enhance_entry_with_cedict loads e c)).pinyin = e.pinyin) ∧
    (pyBlank e.traditional = false →
      (applyCedictPatch e (enhance_entry_with_cedict loads e c)).traditional = e.traditional) ∧
    (pyBlank e.simplified = false →
      (applyCedictPatch e (enhance_entry_with_cedict loads e c)).simplified = e.simplified) ∧
    (f.pinyin ≠ "" →
      (applyEnhancePatch f (enhance_entry_updates o f)).pinyin = f.pinyin) ∧
    (f.vi_meaning ≠ "" →
      (applyEnhancePatch f (enhance_entry_updates o f)).vi_meaning = f.vi_meaning) ∧
    (f.examples ≠ "" →
      (applyEnhancePatch f (enhance_entry_updates o f)).examples = f.examples) ∧
    (f.grammar_info ≠ "" →
      (applyEnhancePatch f (enhance_entry_updates o f)).grammar_info = f.grammar_info) ∧
    (f.zhuyin ≠ "" → f.hanviet_reading ≠ "" →
      (applyEnhancePatch f (enhance_entry_updates o f)).zhuyin = f.zhuyin ∧
        (applyEnhancePatch f (enhance_entry_updates o f)).hanviet_reading
          = f.hanviet_reading) := by
  refine ⟨?_, ?_, ?_, ?_, ?_, ?_, ?_, ?_, ?_⟩
  · intro h; unfold enhance_entry_with_cedict applyCedictPatch; simp [h]
  · intro h; unfold enhance_entry_with_cedict applyCedictPatch; simp [h]
  · intro h; unfold enhance_entry_with_cedict applyCedictPatch; simp [h]
  · intro h; unfold enhance_entry_with_cedict applyCedictPatch; simp [h]
  · intro h
    unfold applyEnhancePatch
    rw [enhance_entry_updates_pinyin_of_filled o f h]
    rfl
  · intro h
    unfold applyEnhancePatch
    rw [enhance_entry_updates_vi_of_filled o f h]
    rfl
  · intro h
    unfold applyEnhancePatch
    rw [enhance_entry_updates_examples_of_filled o f h]
    rfl
  · intro h
    unfold applyEnhancePatch
    rw [enhance_entry_updates_grammar_of_filled o f h]
    rfl
  · intro h1 h2
    have hp := enhance_entry_updates_pron_of_filled o f h1 h2
    unfold applyEnhancePatch
    rw [hp.1, hp.2]
    exact ⟨rfl, rfl⟩

/-- Witness for C1 (amended): the non-destructive guarantees instantiated
 at a fully populated row, each hypothesis discharged concretely. -/
theorem nondestructive_merge_amended_witness :
    pyBlank populatedEntry.en_meaning = false ∧
    populatedEntry.pinyin ≠ "" ∧
    populatedEntry.zhuyin ≠ "" ∧
    populatedEntry.hanviet_reading ≠ "" ∧
    (applyCedictPatch populatedEntry
      (enhance_entry_with_cedict loadsNone populatedEntry sampleCedict)).en_meaning
        = populatedEntry.en_meaning ∧
    (applyCedictPatch populatedEntry
      (enhance_entry_with_cedict loadsNone populatedEntry sampleCedict)).pinyin
        = populatedEntry.pinyin ∧
    (applyEnhancePatch populatedEntry
      (enhance_entry_updates sampleOracle populatedEntry)).vi_meaning
        = populatedEntry.vi_meaning ∧
    (applyEnhancePatch populatedEntry
      (enhance_entry_updates sampleOracle populatedEntry)).zhuyin
        = populatedEntry.zhuyin := by
  have h := nondestructive_merge_amended loadsNone populatedEntry sampleCedict
    sampleOracle populatedEntry
  exact ⟨by decide, by decide, by decide, by decide,
    h.1 (by decide), h.2.1 (by decide), h.2.2.2.2.2.1 (by decide),
    (h.2.2.2.2.2.2.2.2 (by decide) (by decide)).1⟩

/-- Counterexample to C1 as stated: the patch **does** change already
non-empty fields — `enhance_entry_with_cedict` rewrites a populated
`cedict_definitions` sidecar whenever the source row carries definitions,
and `enhance_entry` overwrites a populated `zhuyin` when `hanviet_reading`
is empty (the pronunciation request is gated on the disjunction). -/
theorem nondestructive_merge_counterexample :
    populatedEntry.cedict_definitions = "old" ∧ "old" ≠ "" ∧
    (applyCedictPatch populatedEntry
      (enhance_entry_with_cedict loadsNone populatedEntry sampleCedictDefs)).cedict_definitions
        = "x" ∧ ("x" : String) ≠ "old" ∧
    zhuyinOnlyEntry.zhuyin = "ㄏㄠˇ" ∧ "ㄏㄠˇ" ≠ "" ∧
    (applyEnhancePatch zhuyinOnlyEntry
      (enhance_entry_updates sampleOracle zhuyinOnlyEntry)).zhuyin = "ㄋㄧˇ ㄏㄠˇ" ∧
    ("ㄋㄧˇ ㄏㄠˇ" : String) ≠ "ㄏㄠˇ" := by
  decide

/-- Claim C2 (amended): reconciliation is **content**-idempotent at the
update phase modulo timestamps — re-running `enhance_entry_with_cedict` on an
already-patched entry writes back only values identical to what is stored, so
a second application changes no entry — but the **reported counts** of a
second `integrate_full` run are not zero: the matched count is re-reported in
full, every matched entry whose source definitions sidecar is non-empty is
re-counted as updated (`cedict_definitions` is re-applied unconditionally),
and the insert phase may add more rows when the first run was cap- or
window-limited (see the counterexample). -/
theorem integrate_update_phase_content_idempotent
    (loads : String → Option PyJson) (e : DictEntry) (c : CedictRow) :
    applyCedictPatch (applyCedictPatch e (enhance_entry_with_cedict loads e c))
      (enhance_entry_with_cedict loads
        (applyCedictPatch e (enhance_entry_with_cedict loads e c)) c) =
    applyCedictPatch e (enhance_entry_with_cedict loads e c) := by
  cases e
  unfold enhance_entry_with_cedict applyCedictPatch
  simp only [DictEntry.mk.injEq, and_true, true_and, eq_self_iff_true]
  refine ⟨?_, ?_, ?_, ?_, ?_⟩
  · split_ifs <;> simp_all
  · split_ifs <;> simp_all
  · split_ifs <;> simp_all
  · split_ifs <;> simp_all
  · rcases hld : loads c.definitions with _ | j <;>
      simp only [hld] <;> split_ifs <;> simp_all

/-- Counterexample to C2 as stated: on a store with one matching entry whose
source row carries a (non-JSON) definitions sidecar, the second
`integrate_full` run still reports `matched_entries = 1` and
`updated_entries = 1` — not zero — because the sidecar patch recurs. -/
theorem integrate_second_run_counts_counterexample :
    (CEDICTIntegrator.integrate_full loadsNone 10
        (CEDICTIntegrator.integrate_full loadsNone 10 [sampleEntry]
          [sampleCedictDefs]).1 [sampleCedictDefs]).2.matched_entries = 1 ∧
    (CEDICTIntegrator.integrate_full loadsNone 10
        (CEDICTIntegrator.integrate_full loadsNone 10 [sampleEntry]
          [sampleCedictDefs]).1 [sampleCedictDefs]).2.updated_entries = 1 ∧
    ¬((CEDICTIntegrator.integrate_full loadsNone 10
        (CEDICTIntegrator.integrate_full loadsNone 10 [sampleEntry]
          [sampleCedictDefs]).1 [sampleCedictDefs]).2.matched_entries = 0 ∧
      (CEDICTIntegrator.integrate_full loadsNone 10
        (CEDICTIntegrator.integrate_full loadsNone 10 [sampleEntry]
          [sampleCedictDefs]).1 [sampleCedictDefs]).2.updated_entries = 0) := by
  decide

/-- Claim C3: no duplicate insertion — any Source Store row whose simplified
or traditional form already occurs as a Primary Store `word` (as snapshotted
at the start of the insert phase) is filtered out by
`add_new_cedict_entries` and never inserted. -/
theorem add_new_cedict_entries_no_duplicate_insert
    (limit : Nat) (db : List DictEntry) (ced : List CedictRow) (S : CedictRow)
    (hdup : S.simplified ∈ db.map (fun e => e.word) ∨
      S.traditional ∈ db.map (fun e => e.word)) :
    S ∉ (CEDICTIntegrator.add_new_cedict_entries limit db ced).2.2 := by
  intro hmem
  simp only [CEDICTIntegrator.add_new_cedict_entries] at hmem
  have h1 : S ∈ ((ced.insertionSort CEDICTIntegrator.cedictLe).take (limit * 3)).filter
      (fun r => !(db.map (fun e => e.word)).contains r.traditional &&
        !(db.map (fun e => e.word)).contains r.simplified) :=
    List.take_subset _ _ hmem
  have h2 := (List.mem_filter.mp h1).2
  simp at h2
  rcases hdup with h | h
  · obtain ⟨x, hx, hw⟩ := List.mem_map.mp h
    exact h2.2 x hx hw
  · obtain ⟨x, hx, hw⟩ := List.mem_map.mp h
    exact h2.1 x hx hw

/-- Witness for C3: the §8 source row for `你好` is not inserted when the
store already holds `你好`. -/
theorem add_new_cedict_entries_no_duplicate_insert_witness :
    (sampleCedict.simplified ∈ [sampleEntry].map (fun e => e.word) ∨
      sampleCedict.traditional ∈ [sampleEntry].map (fun e => e.word)) ∧
    sampleCedict ∉
      (CEDICTIntegrator.add_new_cedict_entries 10 [sampleEntry] [sampleCedict]).2.2 :=
  ⟨Or.inl (by decide),
    add_new_cedict_entries_no_duplicate_insert 10 [sampleEntry] [sampleCedict]
      sampleCedict (Or.inl (by decide))⟩

theorem enhance_batch_inner_total_mono (o : EnhanceOracle) (max_entries : Nat) :
    ∀ (l : List DictEntry) (s : BatchState),
      s.total_processed ≤ (enhance_batch_inner o max_entries l s).total_processed := by
  intro l
  induction l with
  | nil => intro s; simp [enhance_batch_inner]
  | cons e rest ih =>
    intro s
    rw [enhance_batch_inner]
    by_cases hc : max_entries ≤ s.total_processed
    · rw [if_pos hc]
    · rw [if_neg hc]
      exact le_trans (Nat.le_succ _)
        (ih ⟨(enhance_entry o s.db e).1, s.total_processed + 1,
          s.enhanced_count + (if (enhance_entry o s.db e).2 then 1 else 0)⟩)

theorem enhance_batch_inner_total_lt (o : EnhanceOracle) (max_entries : Nat) :
    ∀ (l : List DictEntry), l ≠ [] → ∀ (s : BatchState),
      s.total_processed < max_entries →
      s.total_processed < (enhance_batch_inner o max_entries l s).total_processed := by
  intro l hl s hs
  rcases l with _ | ⟨e, rest⟩
  · exact absurd rfl hl
  · rw [enhance_batch_inner, if_neg (Nat.not_le.mpr hs)]
    exact Nat.lt_of_lt_of_le (Nat.lt_succ_self _)
      (enhance_batch_inner_total_mono o max_entries rest
        ⟨(enhance_entry o s.db e).1, s.total_processed + 1,
          s.enhanced_count + (if (enhance_entry o s.db e).2 then 1 else 0)⟩)

theorem enhance_batch_inner_total_le (o : EnhanceOracle) (max_entries : Nat) :
    ∀ (l : List DictEntry) (s : BatchState), s.total_processed ≤ max_entries →
      (enhance_batch_inner o max_entries l s).total_processed ≤ max_entries := by
  intro l
  induction l with
  | nil => intro s h; simpa [enhance_batch_inner] using h
  | cons e rest ih =>
    intro s h
    rw [enhance_batch_inner]
    by_cases hc : max_entries ≤ s.total_processed
    · rw [if_pos hc]; exact h
    · rw [if_neg hc]
      exact ih _ (Nat.succ_le_of_lt (Nat.not_le.mp hc))

theorem enhance_batch_inner_enh_le (o : EnhanceOracle) (max_entries : Nat) :
    ∀ (l : List DictEntry) (s : BatchState),
      s.enhanced_count ≤ s.total_processed →
      (enhance_batch_inner o max_entries l s).enhanced_count ≤
        (enhance_batch_inner o max_entries l s).total_processed := by
  intro l
  induction l with
  | nil => intro s h; simpa [enhance_batch_inner] using h
  | cons e rest ih =>
    intro s h
    rw [enhance_batch_inner]
    by_cases hc : max_entries ≤ s.total_processed
    · rw [if_pos hc]; exact h
    · rw [if_neg hc]
      refine ih _ ?_
      dsimp only
      split <;> omega

theorem enhance_batch_loop_invariant (o : EnhanceOracle)
    (batch_size max_entries : Nat) :
    ∀ (n : Nat) (s : BatchState), max_entries - s.total_processed ≤ n →
      s.total_processed ≤ max_entries → s.enhanced_count ≤ s.total_processed →
      (enhance_batch_loop o batch_size max_entries s).total_processed ≤ max_entries ∧
      (enhance_batch_loop o batch_size max_entries s).enhanced_count ≤
        (enhance_batch_loop o batch_size max_entries s).total_processed := by
  intro n
  induction n with
  | zero =>
    intro s hn hs he
    rw [enhance_batch_loop, dif_neg (by omega)]
    exact ⟨hs, he⟩
  | succ n ih =>
    intro s hn hs he
    rw [enhance_batch_loop]
    by_cases hlt : s.total_processed < max_entries
    · rw [dif_pos hlt]
      dsimp only
      by_cases hemp : find_entries_needing_enhancement s.db batch_size = []
      · rw [dif_pos hemp]
        exact ⟨hs, he⟩
      · rw [dif_neg hemp]
        refine ih _ ?_ ?_ ?_
        · have := enhance_batch_inner_total_lt o max_entries _ hemp s hlt
          omega
        · exact enhance_batch_inner_total_le o max_entries _ _ hs
        · exact enhance_batch_inner_enh_le o max_entries _ _ he
    · rw [dif_neg hlt]
      exact ⟨hs, he⟩

/-- Claim C4: batch termination — for every oracle, store, `batch_size ≥ 1`
and budget `max_entries`, `enhance_batch` processes at most `max_entries`
records and its returned `enhanced_count` is at most `max_entries`.
Termination even on a larger candidate pool is the totality of
`enhance_batch_loop`, whose well-founded recursion on
`max_entries - total_processed` is exactly the loop's progress argument. -/
theorem enhance_batch_bounded (o : EnhanceOracle) (batch_size max_entries : Nat)
    (db : List DictEntry) (hbs : 1 ≤ batch_size) :
    (enhance_batch o batch_size max_entries db).total_processed ≤ max_entries ∧
      (enhance_batch o batch_size max_entries db).enhanced_count ≤ max_entries := by
  have h := enhance_batch_loop_invariant o batch_size max_entries max_entries
    ⟨db, 0, 0⟩ (Nat.sub_le _ _) (Nat.zero_le _) (Nat.le_refl 0)
  exact ⟨h.1, le_trans h.2 h.1⟩

/-- Witness for C4: the bounds at `batch_size = 1`, `max_entries = 5` on the
empty store. -/
theorem enhance_batch_bounded_witness :
    1 ≤ 1 ∧
    (enhance_batch sampleOracle 1 5 []).total_processed ≤ 5 ∧
    (enhance_batch sampleOracle 1 5 []).enhanced_count ≤ 5 :=
  ⟨by decide, (enhance_batch_bounded sampleOracle 1 5 [] (by decide)).1,
    (enhance_batch_bounded sampleOracle 1 5 [] (by decide)).2⟩

/-- Claim C5: malformed-output tolerance — when the response contains no
valid bracketed structure of the expected kind (no well-ordered `{`…`}`
pair for the pronunciation request, respectively `[`…`]` for the examples
request, or a bracketed substring that does not parse to that kind), the
extraction returns the empty dict / empty list.  The embedding is a total
function: the `except` handlers of the source are the `none` branches, so
no exception escapes. -/
theorem malformed_response_yields_empty (loads : String → Option PyJson)
    (response : String)
    (hobj : ∀ sub kvs, extract_bracketed '{' '}' response = some sub →
      loads sub ≠ some (PyJson.obj kvs))
    (harr : ∀ sub l, extract_bracketed '[' ']' response = some sub →
      loads sub ≠ some (PyJson.arr l)) :
    enhance_missing_pronunciation loads (some response) = [] ∧
      enhance_missing_examples loads (some response) = [] := by
  constructor
  · unfold enhance_missing_pronunciation
    rcases hx : extract_bracketed '{' '}' response with _ | sub
    · simp [hx]
    · rcases hl : loads sub with _ | j
      · simp [hx, hl]
      · cases j
        case obj kvs => exact absurd hl (hobj sub kvs hx)
        all_goals simp [hx, hl]
  · unfold enhance_missing_examples
    rcases hx : extract_bracketed '[' ']' response with _ | sub
    · simp [hx]
    · rcases hl : loads sub with _ | j
      · simp [hx, hl]
      · cases j
        case arr l => exact absurd hl (harr sub l hx)
        all_goals simp [hx, hl]

/-- Witness for C5: a plain-prose response with no brackets at all, under a
parser that accepts nothing, yields the empty dict and the empty list. -/
theorem malformed_response_yields_empty_witness :
    (∀ sub kvs, extract_bracketed '{' '}' "alas, no structured payload" = some sub →
      loadsNone sub ≠ some (PyJson.obj kvs)) ∧
    (∀ sub l, extract_bracketed '[' ']' "alas, no structured payload" = some sub →
      loadsNone sub ≠ some (PyJson.arr l)) ∧
    enhance_missing_pronunciation loadsNone (some "alas, no structured payload") = [] ∧
    enhance_missing_examples loadsNone (some "alas, no structured payload") = [] := by
  have h := malformed_response_yields_empty loadsNone "alas, no structured payload"
    (fun sub kvs _ => by simp [loadsNone]) (fun sub l _ => by simp [loadsNone])
  exact ⟨fun sub kvs _ => by simp [loadsNone], fun sub l _ => by simp [loadsNone],
    h.1, h.2⟩

/-- Claim C6: the §8 reconciliation scenario — one store row
`{word="你好", translation=""}` against the single source row for `你好`:
`integrate(10)` fills `pinyin` and `en_meaning`, leaves `vi_meaning` empty,
and reports matched = 1, updated = 1, inserted = 0 (`added_entries`). -/
theorem integrate_concrete_scenario :
    (CEDICTIntegrator.integrate_full loadsNone 10 [sampleEntry] [sampleCedict]).1 =
      [{ sampleEntry with pinyin := "ni3 hao3", en_meaning := "hello" }] ∧
    (CEDICTIntegrator.integrate_full loadsNone 10 [sampleEntry] [sampleCedict]).2 =
      { matched_entries := 1, updated_entries := 1, added_entries := 0,
        total_before := 1, total_after := 1 } ∧
    ((CEDICTIntegrator.integrate_full loadsNone 10 [sampleEntry]
        [sampleCedict]).1.map (fun e => e.vi_meaning)) = [""] := by
  refine ⟨by decide, by decide, by decide⟩

/-- Claim C7: the Scheduler's candidate query returns exactly the entries
missing one of `zhuyin` / `vi_meaning` / `hanviet_reading`, in
`frequency_rank DESC, id ASC` order (`enhanceLe`, with SQLite's NULL ranks
ordered last), capped at the batch limit: every returned row needs
enhancement, the output is sorted, its length is the limit capped by the
candidate count, and the returned rows together with the left-over
candidates permute the full candidate set with every returned row ordered
no later than every left-over one. -/
theorem find_entries_needing_enhancement_spec (db : List DictEntry) (limit : Nat) :
    (∀ e ∈ find_entries_needing_enhancement db limit, needs_enhancement e = true) ∧
    List.Sorted enhanceLe (find_entries_needing_enhancement db limit) ∧
    (find_entries_needing_enhancement db limit).length =
      min limit (db.filter needs_enhancement).length ∧
    ∃ rest, (find_entries_needing_enhancement db limit ++ rest).Perm
        (db.filter needs_enhancement) ∧
      ∀ a ∈ find_entries_needing_enhancement db limit, ∀ b ∈ rest, enhanceLe a b := by
  refine ⟨?_, ?_, ?_, ?_⟩
  · intro e he
    have h1 : e ∈ (db.filter needs_enhancement).insertionSort enhanceLe :=
      List.take_subset _ _ he
    have h2 := (List.mem_insertionSort enhanceLe).mp h1
    exact (List.mem_filter.mp h2).2
  · exact List.Pairwise.sublist (List.take_sublist _ _)
      (List.sorted_insertionSort enhanceLe _)
  · unfold find_entries_needing_enhancement
    rw [List.length_take, List.length_insertionSort]
  · refine ⟨((db.filter needs_enhancement).insertionSort enhanceLe).drop limit, ?_, ?_⟩
    · unfold find_entries_needing_enhancement
      rw [List.take_append_drop]
      exact List.perm_insertionSort enhanceLe _
    · intro a ha b hb
      have hs := List.sorted_insertionSort enhanceLe (db.filter needs_enhancement)
      rw [← List.take_append_drop limit
        ((db.filter needs_enhancement).insertionSort enhanceLe)] at hs
      exact (List.pairwise_append.mp hs).2.2 a ha b hb

/-- Witness for C7: the selection facts instantiated on a one-row store. -/
theorem find_entries_needing_enhancement_spec_witness :
    (∀ e ∈ find_entries_needing_enhancement [sampleEntry] 1,
      needs_enhancement e = true) ∧
    (find_entries_needing_enhancement [sampleEntry] 1).length =
      min 1 ([sampleEntry].filter needs_enhancement).length :=
  ⟨(find_entries_needing_enhancement_spec [sampleEntry] 1).1,
    (find_entries_needing_enhancement_spec [sampleEntry] 1).2.2.1⟩

/-- Claim C8: rate limiting — with time monotone (the previous call is not in
the future) and a nonnegative configured interval, the duration passed to
`time.sleep` by `_rate_limit` is never longer than the interval; it is zero
when at least the interval has elapsed, and exactly the remainder of the
interval otherwise. -/
theorem rate_limit_sleep_spec (request_delay last_request_time current_time : ℚ)
    (hmono : last_request_time ≤ current_time) (hpos : 0 ≤ request_delay) :
    rate_limit_sleep request_delay last_request_time current_time ≤ request_delay ∧
    (request_delay ≤ current_time - last_request_time →
      rate_limit_sleep request_delay last_request_time current_time = 0) ∧
    (current_time - last_request_time < request_delay →
      rate_limit_sleep request_delay last_request_time current_time =
        request_delay - (current_time - last_request_time)) := by
  unfold rate_limit_sleep
  refine ⟨?_, ?_, ?_⟩
  · split_ifs <;> linarith
  · intro h; rw [if_neg (not_lt.mpr h)]
  · intro h; rw [if_pos h]

/-- Witness for C8: a 1-second interval with half a second elapsed sleeps
exactly the remaining half second. -/
theorem rate_limit_sleep_spec_witness :
    (0 : ℚ) ≤ 1 / 2 ∧ (0 : ℚ) ≤ 1 ∧
    rate_limit_sleep 1 0 (1 / 2) ≤ 1 ∧
    rate_limit_sleep 1 0 (1 / 2) = 1 - (1 / 2 - 0) := by
  have h := rate_limit_sleep_spec 1 0 (1 / 2) (by norm_num) (by norm_num)
  exact ⟨by norm_num, by norm_num, h.1, h.2.2 (by norm_num)⟩

/-- Claim C9: the tone-number transform (a pure function) maps
`"ni3 hao3"` to `"nǐ hǎo"` as claimed, but maps `"zhong1guo2"` to
`"zhóng1guo"`, **not** `"zhōngguó"`: a tone digit is only recognised at the
end of a whitespace-separated word, so the embedded `1` survives and the
wrong syllable is marked.  The repository's own test
(`test_pinyin_conversion.py`) expects `"zhōngguó"`, so this is a code bug. -/
theorem convert_pinyin_tone_numbers_eval :
    convert_pinyin_tone_numbers "ni3 hao3" = "nǐ hǎo" ∧
    convert_pinyin_tone_numbers "zhong1guo2" = "zhóng1guo" ∧
    convert_pinyin_tone_numbers "zhong1guo2" ≠ "zhōngguó" := by
  refine ⟨by decide, by decide, by decide⟩

/-- Claim C10: the Completion Reporter's statistics are total on the empty
store — with zero rows, every count and every guarded coverage rate is 0;
no division by zero occurs because each rate is gated on `total > 0`. -/
theorem get_initial_statistics_empty_store :
    get_initial_statistics [] =
      { total_entries := 0, with_english := 0, with_vietnamese := 0,
        with_pinyin := 0, with_zhuyin := 0, with_hanviet := 0,
        english_rate := 0, vietnamese_rate := 0, pinyin_rate := 0,
        zhuyin_rate := 0, hanviet_rate := 0 } := by
  rfl
